import Mathlib

/-!
Verification of the Attendance & Shift Classification Engine of the
BinaryOfficeManagementBackend repository.

Timestamps are modelled as natural numbers: milliseconds of local wall-clock
time since the local epoch 1970-01-01T00:00.  All the JavaScript code under
scrutiny compares `Date` values and `getHours()`/`getMinutes()` fields in the
same local frame, so this shallow embedding captures exactly the arithmetic
the routes and schema hooks perform.  Fractional hour quantities
(`workingHours`, `overtime`) are modelled as rationals, mirroring JavaScript's
exact arithmetic on the small values involved.
-/

namespace OfficeAttendance

/-- Milliseconds in one minute. -/
def msPerMinute : Nat := 60000

/-- Milliseconds in one hour. -/
def msPerHour : Nat := 3600000

/-- Milliseconds in one day. -/
def msPerDay : Nat := 86400000

/-- Local wall-clock milliseconds since the local midnight of the timestamp's
calendar day (the `Date` with `setHours(0,0,0,0)` subtracted). -/
def timeOfDay (t : Nat) : Nat := t % msPerDay

/-- The JavaScript `getHours()` of a local timestamp. -/
def hourOf (t : Nat) : Nat := timeOfDay t / msPerHour

/-- The JavaScript `getMinutes()` of a local timestamp. -/
def minuteOf (t : Nat) : Nat := t % msPerHour / msPerMinute

/-- The JavaScript `setHours(0,0,0,0)`: the timestamp truncated to the local
midnight of its calendar day. -/
def dayStart (t : Nat) : Nat := t - timeOfDay t

/-- Gregorian leap-year test. -/
def isLeap (y : Nat) : Bool := (y % 4 == 0 && y % 100 != 0) || y % 400 == 0

/-- Days in a given month of a given year. -/
def daysInMonth (y m : Nat) : Nat :=
  if m == 2 then (if isLeap y then 29 else 28)
  else if m == 4 || m == 6 || m == 9 || m == 11 then 30
  else 31

/-- Days elapsed from 1970-01-01 to the given civil date. -/
def daysSinceEpoch (y m d : Nat) : Nat :=
  (List.range (y - 1970)).foldl (fun a i => a + (if isLeap (1970 + i) then 366 else 365)) 0
    + (List.range (m - 1)).foldl (fun a i => a + daysInMonth y (i + 1)) 0
    + (d - 1)

/-- Local timestamp (ms) of a given civil date and wall-clock hour/minute. -/
def localMs (y m d hh mm : Nat) : Nat :=
  daysSinceEpoch y m d * msPerDay + hh * msPerHour + mm * msPerMinute

/-- Embeds `getShiftDate` of the night-shift attendance route: if the local
hour is below 18 the timestamp is moved back one day (`setDate(getDate()-1)`)
and then truncated to midnight (`setHours(0,0,0,0)`); otherwise it is merely
truncated to midnight. -/
def getShiftDate (now : Nat) : Nat :=
  if hourOf now < 18 then dayStart (now - msPerDay) else dayStart now

/-- One break entry of an attendance record: `{ startTime, endTime, duration,
reason }` from the `breaks` sub-schema.  `endTime` and `duration` are unset
while the break is open. -/
structure BreakEntry where
  startTime : Nat
  endTime : Option Nat
  duration : Option Nat
  reason : String
deriving DecidableEq

/-- An attendance document of the `Attendance` mongoose model.  `date` holds
the midnight timestamp of the shift date (the value the routes store there).
`checkInTime`/`checkOutTime` embed `checkIn.time`/`checkOut.time`; the audit
metadata (ip address, geolocation, notes) plays no role in the claims. -/
structure AttendanceRecord where
  employee : Nat
  date : Nat
  checkInTime : Option Nat
  checkOutTime : Option Nat
  status : String
  workingHours : ℚ
  overtime : ℚ
  breaks : List BreakEntry
deriving DecidableEq

/-- The persisted collection of attendance documents. -/
abbrev Store := List AttendanceRecord

/-- Embeds `Attendance.findOne({ employee, date })`. -/
def findRec (store : Store) (emp date : Nat) : Option AttendanceRecord :=
  store.find? (fun r => r.employee == emp && r.date == date)

/-- Embeds saving a fetched document back: the record for the same
`(employee, date)` key is replaced in place. -/
def replaceRec (store : Store) (a : AttendanceRecord) : Store :=
  store.map (fun r => if r.employee == a.employee && r.date == a.date then a else r)

/-- The `status` enum of the day-shift model `src/models/Attendance.js`. -/
def dayStatusEnum : List String :=
  ["present", "absent", "late", "half-day", "on-leave", "holiday", "weekend"]

/-- The `status` enum of the night-shift model variant whose overtime
boundary is 4:00 AM (it lacks `early-clockout`). -/
def nightStatusEnum400 : List String :=
  ["present", "absent", "late", "early", "overtime", "clocked-out",
   "half-day", "on-leave", "holiday", "weekend"]

/-- The `status` enum of the night-shift model variant whose overtime
boundary is 4:05 AM (the full extended vocabulary). -/
def nightStatusEnum405 : List String :=
  ["present", "absent", "late", "early", "overtime", "clocked-out",
   "early-clockout", "half-day", "on-leave", "holiday", "weekend"]

/-- The schema default for `status`. -/
def defaultStatus : String := "absent"

/-- The `reason` enum of the `breaks` sub-schema. -/
def reasonEnum : List String := ["washroom", "lunch", "cigarette", "break"]

/-- Mongoose validation of the `breaks` array: every entry's reason must be
in the enum. -/
def breaksValid (bs : List BreakEntry) : Bool :=
  bs.all (fun b => reasonEnum.contains b.reason)

/-- Mongoose document validation against a given status enum: the status and
every break reason must belong to their enums. -/
def recordValid (enum : List String) (r : AttendanceRecord) : Bool :=
  enum.contains r.status && breaksValid r.breaks

/-- The sum the pre-save hooks compute over `breaks`:
`reduce((total, b) => total + (b.duration || 0), 0)`.  Only breaks carrying a
stored `duration` contribute; open breaks have none and count as zero. -/
def closedBreakMinutes (bs : List BreakEntry) : Nat :=
  bs.foldl (fun t b => t + b.duration.getD 0) 0

/-- The hooks' `diffHours`: `(checkOut.time - checkIn.time) / 3600000`. -/
def elapsedHours (ci co : Nat) : ℚ := ((co : ℚ) - (ci : ℚ)) / 3600000

/-- The hooks' `breakHours`: summed break minutes divided by 60. -/
def breakHoursOf (bs : List BreakEntry) : ℚ := (closedBreakMinutes bs : ℚ) / 60

/-- Embeds the `pre('save')` hook of the day-shift model
`src/models/Attendance.js`: when both times are set, `workingHours` is
recomputed as `max(0, diffHours - breakHours)`, and `overtime` is set to
`workingHours - 8` only when `workingHours > 8` (there is no else branch, so
otherwise the previously stored `overtime` is retained). -/
def preSaveDay (r : AttendanceRecord) : AttendanceRecord :=
  match r.checkInTime, r.checkOutTime with
  | some ci, some co =>
    let wh := max 0 (elapsedHours ci co - breakHoursOf r.breaks)
    let ot := if 8 < wh then wh - 8 else r.overtime
    { r with workingHours := wh, overtime := ot }
  | _, _ => r

/-- The 4:00 AM overtime boundary (in ms of local day) of one night-shift
model variant. -/
def boundary400 : Nat := 4 * msPerHour

/-- The 4:05 AM overtime boundary of the other night-shift model variant. -/
def boundary405 : Nat := 4 * msPerHour + 5 * msPerMinute

/-- Embeds the `pre('save')` hook of the night-shift model variants: working
hours as in the day model, and `overtime = (checkOut.time - boundary) /
3600000` when the checkout is strictly after the boundary (taken on the
checkout's own calendar day) and its local hour is below 12, else 0. -/
def preSaveNight (boundaryMs : Nat) (r : AttendanceRecord) : AttendanceRecord :=
  match r.checkInTime, r.checkOutTime with
  | some ci, some co =>
    let wh := max 0 (elapsedHours ci co - breakHoursOf r.breaks)
    let ot : ℚ :=
      if boundaryMs < timeOfDay co ∧ hourOf co < 12 then
        ((timeOfDay co - boundaryMs : Nat) : ℚ) / 3600000
      else 0
    { r with workingHours := wh, overtime := ot }
  | _, _ => r

/-- Errors the persistence layer can raise on `save`/`create`: an enum
validation failure, or the duplicate-key violation of the unique
`(employee, date)` index. -/
inductive StorageError where
  | DuplicateKey : StorageError
  | ValidationError : StorageError
deriving DecidableEq

/-- Embeds `document.save()` for a schema with the given status enum and
pre-save hook: mongoose first validates the document and then runs the
user-registered `pre('save')` hook. -/
def saveWith (enum : List String) (hook : AttendanceRecord → AttendanceRecord)
    (r : AttendanceRecord) : Except StorageError AttendanceRecord :=
  if recordValid enum r then .ok (hook r) else .error .ValidationError

/-- Saving through the day-shift model. -/
def saveDay : AttendanceRecord → Except StorageError AttendanceRecord :=
  saveWith dayStatusEnum preSaveDay

/-- Saving through the 4:05-boundary night-shift model variant (the one whose
enum carries the full extended vocabulary, hence the one under which the
night-shift route's saves can succeed for every status it assigns). -/
def saveNight : AttendanceRecord → Except StorageError AttendanceRecord :=
  saveWith nightStatusEnum405 (preSaveNight boundary405)

/-- Embeds `Attendance.create`: validation and the pre-save hook run first,
then the insert hits the unique `(employee, date)` index. -/
def createWith (save : AttendanceRecord → Except StorageError AttendanceRecord)
    (store : Store) (r : AttendanceRecord) : Except StorageError Store :=
  match save r with
  | .error e => .error e
  | .ok r1 =>
    if (findRec store r.employee r.date).isSome then .error .DuplicateKey
    else .ok (r1 :: store)

/-- The rejection outcomes of the attendance routes.  `ServerError` is the
generic 500 the catch blocks produce for any storage exception (validation or
duplicate-key); the others are the explicit 400 rejections. -/
inductive RouteError where
  | AlreadyCheckedIn : RouteError
  | OutsideWindow : RouteError
  | NotCheckedIn : RouteError
  | AlreadyCheckedOut : RouteError
  | BreakAlreadyOpen : RouteError
  | NoOpenBreak : RouteError
  | ServerError : RouteError
deriving DecidableEq

/-- A fresh attendance document as built by the check-in routes. -/
def mkRecord (emp date ci : Nat) (st : String) : AttendanceRecord :=
  { employee := emp, date := date, checkInTime := some ci, checkOutTime := none,
    status := st, workingHours := 0, overtime := 0, breaks := [] }

/-- Day-shift check-in classification: before 7:00 AM `early`, from 7:00
through 7:05 inclusive `present`, after 7:05 `late`. -/
def dayCheckInStatus (now : Nat) : String :=
  if timeOfDay now < 7 * msPerHour then "early"
  else if timeOfDay now ≤ 7 * msPerHour + 5 * msPerMinute then "present"
  else "late"

/-- The body of the day-shift `POST /check-in` route after its `findOne`,
taking the lookup result as a parameter (so that a stale snapshot, as in two
racing requests, is expressible): duplicate pre-check, 4:00 PM cutoff,
classification, then save or create, with every storage exception caught and
turned into the generic 500. -/
def dayCheckInCore (found : Option AttendanceRecord) (store : Store)
    (emp now : Nat) : Except RouteError Store :=
  match found with
  | some a =>
    if a.checkInTime.isSome then .error .AlreadyCheckedIn
    else if 16 * msPerHour ≤ timeOfDay now then .error .OutsideWindow
    else
      match saveDay { a with checkInTime := some now, status := dayCheckInStatus now } with
      | .ok a1 => .ok (replaceRec store a1)
      | .error _ => .error .ServerError
  | none =>
    if 16 * msPerHour ≤ timeOfDay now then .error .OutsideWindow
    else
      match createWith saveDay store (mkRecord emp (dayStart now) now (dayCheckInStatus now)) with
      | .ok s => .ok s
      | .error _ => .error .ServerError

/-- The day-shift `POST /check-in` route: the record key is today's
midnight. -/
def dayCheckIn (store : Store) (emp now : Nat) : Except RouteError Store :=
  dayCheckInCore (findRec store emp (dayStart now)) store emp now

/-- Day-shift checkout classification: after 4:05 PM `overtime`, from 4:00 PM
through 4:05 PM inclusive `clocked-out`, before 4:00 PM the prior status is
kept. -/
def dayCheckOutStatus (now : Nat) (prior : String) : String :=
  if 16 * msPerHour + 5 * msPerMinute < timeOfDay now then "overtime"
  else if 16 * msPerHour ≤ timeOfDay now then "clocked-out"
  else prior

/-- The day-shift `POST /check-out` route. -/
def dayCheckOut (store : Store) (emp now : Nat) : Except RouteError Store :=
  match findRec store emp (dayStart now) with
  | none => .error .NotCheckedIn
  | some a =>
    if a.checkInTime.isNone then .error .NotCheckedIn
    else if a.checkOutTime.isSome then .error .AlreadyCheckedOut
    else
      match saveDay { a with checkOutTime := some now,
                             status := dayCheckOutStatus now a.status } with
      | .ok a1 => .ok (replaceRec store a1)
      | .error _ => .error .ServerError

/-- Night-shift check-in classification: hour 18 `early`, hour 19 with minute
at most 5 `present`, otherwise `late`. -/
def nightCheckInStatus (now : Nat) : String :=
  if 18 ≤ hourOf now ∧ hourOf now < 19 then "early"
  else if hourOf now = 19 ∧ minuteOf now ≤ 5 then "present"
  else "late"

/-- The body of the night-shift `POST /check-in` route, with the dead-zone
rejection (local hour in [4, 18)) evaluated before anything else, exactly as
in the source. -/
def nightCheckInCore (found : Option AttendanceRecord) (store : Store)
    (emp now : Nat) : Except RouteError Store :=
  if 4 ≤ hourOf now ∧ hourOf now < 18 then .error .OutsideWindow
  else
    match found with
    | some a =>
      if a.checkInTime.isSome then .error .AlreadyCheckedIn
      else
        match saveNight { a with checkInTime := some now, status := nightCheckInStatus now } with
        | .ok a1 => .ok (replaceRec store a1)
        | .error _ => .error .ServerError
    | none =>
      match createWith saveNight store
          (mkRecord emp (getShiftDate now) now (nightCheckInStatus now)) with
      | .ok s => .ok s
      | .error _ => .error .ServerError

/-- The night-shift `POST /check-in` route: the record key is the resolved
shift date. -/
def nightCheckIn (store : Store) (emp now : Nat) : Except RouteError Store :=
  nightCheckInCore (findRec store emp (getShiftDate now)) store emp now

/-- Night-shift checkout classification, applied only when the local hour is
below 12: before 3:55 AM `early-clockout`; 4:00 through 4:05 inclusive
`clocked-out`; after 4:05 `overtime`; the remaining window (3:55 up to 4:00)
falls to the final else and is also `clocked-out`.  At hour 12 or later the
prior status is kept. -/
def nightCheckOutStatus (now : Nat) (prior : String) : String :=
  if hourOf now < 12 then
    if timeOfDay now < 3 * msPerHour + 55 * msPerMinute then "early-clockout"
    else if 4 * msPerHour ≤ timeOfDay now ∧ timeOfDay now ≤ 4 * msPerHour + 5 * msPerMinute then
      "clocked-out"
    else if 4 * msPerHour + 5 * msPerMinute < timeOfDay now then "overtime"
    else "clocked-out"
  else prior

/-- The night-shift `POST /check-out` route. -/
def nightCheckOut (store : Store) (emp now : Nat) : Except RouteError Store :=
  match findRec store emp (getShiftDate now) with
  | none => .error .NotCheckedIn
  | some a =>
    if a.checkInTime.isNone then .error .NotCheckedIn
    else if a.checkOutTime.isSome then .error .AlreadyCheckedOut
    else
      match saveNight { a with checkOutTime := some now,
                               status := nightCheckOutStatus now a.status } with
      | .ok a1 => .ok (replaceRec store a1)
      | .error _ => .error .ServerError

/-- Whether some break entry is still open (`find(b => !b.endTime)`). -/
def hasOpenBreak (bs : List BreakEntry) : Bool := bs.any (fun b => b.endTime.isNone)

/-- The body of `POST /break/start` (identical in the day and night route
files up to the key resolver and model, both supplied by the caller):
requires a check-in, no checkout, and no open break, then appends an open
break entry with the given reason. -/
def breakStartCore (save : AttendanceRecord → Except StorageError AttendanceRecord)
    (found : Option AttendanceRecord) (store : Store) (reason : String)
    (now : Nat) : Except RouteError Store :=
  match found with
  | none => .error .NotCheckedIn
  | some a =>
    if a.checkInTime.isNone then .error .NotCheckedIn
    else if a.checkOutTime.isSome then .error .AlreadyCheckedOut
    else if hasOpenBreak a.breaks then .error .BreakAlreadyOpen
    else
      match save { a with breaks := a.breaks ++ [⟨now, none, none, reason⟩] } with
      | .ok a1 => .ok (replaceRec store a1)
      | .error _ => .error .ServerError

/-- Closes the first open break entry, mirroring `findIndex(b => !b.endTime)`
followed by the in-place mutation setting `endTime` and
`duration = floor((endTime - startTime) / 60000)`. -/
def closeFirstOpen (now : Nat) : List BreakEntry → List BreakEntry
  | [] => []
  | b :: bs =>
    if b.endTime.isNone then
      { b with endTime := some now, duration := some ((now - b.startTime) / 60000) } :: bs
    else b :: closeFirstOpen now bs

/-- The body of `POST /break/end`: requires a check-in and an open break,
then closes the first open break. -/
def breakEndCore (save : AttendanceRecord → Except StorageError AttendanceRecord)
    (found : Option AttendanceRecord) (store : Store) (now : Nat) :
    Except RouteError Store :=
  match found with
  | none => .error .NotCheckedIn
  | some a =>
    if a.checkInTime.isNone then .error .NotCheckedIn
    else if hasOpenBreak a.breaks = false then .error .NoOpenBreak
    else
      match save { a with breaks := closeFirstOpen now a.breaks } with
      | .ok a1 => .ok (replaceRec store a1)
      | .error _ => .error .ServerError

/-- The day-shift `POST /break/start` route. -/
def dayBreakStart (store : Store) (emp : Nat) (reason : String) (now : Nat) :
    Except RouteError Store :=
  breakStartCore saveDay (findRec store emp (dayStart now)) store reason now

/-- The day-shift `POST /break/end` route. -/
def dayBreakEnd (store : Store) (emp now : Nat) : Except RouteError Store :=
  breakEndCore saveDay (findRec store emp (dayStart now)) store now

/-- The night-shift `POST /break/start` route. -/
def nightBreakStart (store : Store) (emp : Nat) (reason : String) (now : Nat) :
    Except RouteError Store :=
  breakStartCore saveNight (findRec store emp (getShiftDate now)) store reason now

/-- The night-shift `POST /break/end` route. -/
def nightBreakEnd (store : Store) (emp now : Nat) : Except RouteError Store :=
  breakEndCore saveNight (findRec store emp (getShiftDate now)) store now

/-- Number of open break entries of a record's break list. -/
def openCount (bs : List BreakEntry) : Nat :=
  (bs.filter (fun b => b.endTime.isNone)).length

/-- The at-most-one-open-break invariant over a whole store. -/
def storeInv (s : Store) : Prop := ∀ r ∈ s, openCount r.breaks ≤ 1

/-- Fixture: a day-shift record checked in 2024-03-11 at 07:03 with status
`present` (the only on-time statuses the day-shift schema accepts). -/
def dayRec0703 : AttendanceRecord :=
  mkRecord 1 (localMs 2024 3 11 0 0) (localMs 2024 3 11 7 3) "present"

/-- Fixture: a record with one open break, for exercising the break
invariant. -/
def recOpenBreak : AttendanceRecord :=
  { employee := 1, date := 0, checkInTime := some 0, checkOutTime := none,
    status := "present", workingHours := 0, overtime := 0,
    breaks := [⟨0, none, none, "break"⟩] }

/-- Fixture: a night-shift record checked in 2024-03-10 at 19:00. -/
def nightRec1900 : AttendanceRecord :=
  mkRecord 1 (localMs 2024 3 10 0 0) (localMs 2024 3 10 19 0) "present"

/-- Fixture: the working-hours scenario record of the spec — night-shift
check-in 2024-03-10 19:00, check-out 2024-03-11 04:10, one closed 30-minute
break. -/
def scenarioRecord : AttendanceRecord :=
  { employee := 1, date := localMs 2024 3 10 0 0,
    checkInTime := some (localMs 2024 3 10 19 0),
    checkOutTime := some (localMs 2024 3 11 4 10),
    status := "present", workingHours := 0, overtime := 0,
    breaks := [⟨localMs 2024 3 10 22 0, some (localMs 2024 3 10 22 30), some 30, "lunch"⟩] }

/-- Fixture: the record produced by the day-shift operation sequence
check-in 07:03, break start 08:00, check-out 15:59, break end 16:30 on
2024-03-11 (timestamps written out in local epoch milliseconds).  The last
save recomputed `workingHours` but kept the stale `overtime` of the
checkout-time save. -/
def c4FinalRecord : AttendanceRecord :=
  { employee := 1, date := 1710115200000,
    checkInTime := some 1710140580000,
    checkOutTime := some 1710172740000,
    status := "present", workingHours := 13 / 30, overtime := 14 / 15,
    breaks := [⟨1710144000000, some 1710174600000, some 510, "break"⟩] }

/-- Fixture: the record after checking the 07:03 day-shift record out at
15:30 — status kept, checkout recorded, hook-derived hours. -/
def dayRec0703Out : AttendanceRecord :=
  { dayRec0703 with
    checkOutTime := some (localMs 2024 3 11 15 30), workingHours := 169 / 20, overtime := 9 / 20 }

/-- Spec-side definition of Policy B overtime, following the specification's
words: if the checkout local time is after the model-specific boundary and
before local noon, overtime is `(checkOut.time - boundary) / 3600000`, else
0.  It is stated against the checkout timestamp; the boundary instant lies on
the checkout's own calendar day, so the difference equals the
time-of-day difference. -/
def policyBOvertimeSpec (boundaryMs co : Nat) : ℚ :=
  if boundaryMs < timeOfDay co ∧ hourOf co < 12 then
    ((timeOfDay co - boundaryMs : Nat) : ℚ) / 3600000
  else 0

/-- The extended status vocabulary assigned by the shift routes but absent
from the day-shift schema enum. -/
def extendedStatuses : List String := ["early", "overtime", "clocked-out", "early-clockout"]

/-- Local day-start subtraction commutes with stepping one day back, as long
as the timestamp is at least one day after the local epoch. -/
theorem dayStart_sub_day (t : Nat) (h : msPerDay ≤ t) :
    dayStart (t - msPerDay) = dayStart t - msPerDay := by
  unfold dayStart timeOfDay msPerDay at *
  omega

/-- C1: the night-shift shift-date resolver returns the calendar date of
`now` truncated to midnight when the local hour is at least 18, and the
previous calendar date truncated to midnight when the local hour is below 18;
at 2024-03-10T02:00 it resolves to midnight 2024-03-09 and at
2024-03-10T19:00 to midnight 2024-03-10.  (Determinism and purity are
inherent: `getShiftDate` is a function of `now` alone.) -/
theorem c1_shift_date_resolver (t : Nat) (h : msPerDay ≤ t) :
    (18 ≤ hourOf t → getShiftDate t = dayStart t) ∧
    (hourOf t < 18 → getShiftDate t = dayStart t - msPerDay) ∧
    getShiftDate (localMs 2024 3 10 2 0) = localMs 2024 3 9 0 0 ∧
    getShiftDate (localMs 2024 3 10 19 0) = localMs 2024 3 10 0 0 := by
  refine ⟨fun h18 => ?_, fun h18 => ?_, by decide, by decide⟩
  · unfold getShiftDate
    rw [if_neg (by omega)]
  · unfold getShiftDate
    rw [if_pos h18]
    exact dayStart_sub_day t h

/-- Witness instantiating `c1_shift_date_resolver` at 2024-03-10T02:00:
its hour is below 18 and the resolved shift date is one day earlier. -/
theorem c1_shift_date_resolver_witness :
    getShiftDate (localMs 2024 3 10 2 0) = dayStart (localMs 2024 3 10 2 0) - msPerDay :=
  (c1_shift_date_resolver (localMs 2024 3 10 2 0) (by decide)).2.1 (by decide)

/-- The night-shift pre-save hook leaves every field except `workingHours`
and `overtime` unchanged. -/
theorem preSaveNight_fields (b : Nat) (r : AttendanceRecord) :
    (preSaveNight b r).status = r.status ∧
    (preSaveNight b r).checkInTime = r.checkInTime ∧
    (preSaveNight b r).checkOutTime = r.checkOutTime ∧
    (preSaveNight b r).breaks = r.breaks := by
  unfold preSaveNight
  split <;> exact ⟨rfl, rfl, rfl, rfl⟩

/-- The day-shift pre-save hook leaves every field except `workingHours` and
`overtime` unchanged. -/
theorem preSaveDay_fields (r : AttendanceRecord) :
    (preSaveDay r).status = r.status ∧
    (preSaveDay r).checkInTime = r.checkInTime ∧
    (preSaveDay r).checkOutTime = r.checkOutTime ∧
    (preSaveDay r).breaks = r.breaks := by
  unfold preSaveDay
  split <;> exact ⟨rfl, rfl, rfl, rfl⟩

/-- Without a checkout time the night-shift hook is the identity. -/
theorem preSaveNight_no_checkout (b : Nat) (r : AttendanceRecord)
    (h : r.checkOutTime = none) : preSaveNight b r = r := by
  unfold preSaveNight
  split
  · simp_all
  · rfl

/-- Without a checkout time the day-shift hook is the identity. -/
theorem preSaveDay_no_checkout (r : AttendanceRecord)
    (h : r.checkOutTime = none) : preSaveDay r = r := by
  unfold preSaveDay
  split
  · simp_all
  · rfl

/-- A valid document saves to the hook's output. -/
theorem saveWith_ok (enum : List String) (hook : AttendanceRecord → AttendanceRecord)
    (r : AttendanceRecord) (hval : recordValid enum r = true) :
    saveWith enum hook r = .ok (hook r) := by
  unfold saveWith
  rw [if_pos hval]

/-- Creating a record that saves fine against a store with no record under
its key inserts it at the front. -/
theorem createWith_fresh (save : AttendanceRecord → Except StorageError AttendanceRecord)
    (store : Store) (r r1 : AttendanceRecord) (hsave : save r = .ok r1)
    (hfresh : findRec store r.employee r.date = none) :
    createWith save store r = .ok (r1 :: store) := by
  unfold createWith
  rw [hsave, hfresh]
  rfl

/-- The night-shift check-in classifier only produces the three on-shift
labels. -/
theorem nightCheckInStatus_cases (now : Nat) :
    nightCheckInStatus now = "early" ∨ nightCheckInStatus now = "present" ∨
      nightCheckInStatus now = "late" := by
  unfold nightCheckInStatus
  split
  · exact Or.inl rfl
  split
  · exact Or.inr (Or.inl rfl)
  · exact Or.inr (Or.inr rfl)

/-- A fresh record built by any of the check-in routes validates against the
extended night-shift enum whenever its status is one of the three check-in
labels. -/
theorem recordValid405_mk (emp d ci : Nat) (st : String)
    (h : st = "early" ∨ st = "present" ∨ st = "late") :
    recordValid nightStatusEnum405 (mkRecord emp d ci st) = true := by
  rcases h with rfl | rfl | rfl <;> rfl

/-- A permitted night-shift check-in on a fresh shift date creates the
classified record. -/
theorem nightCheckIn_fresh (store : Store) (emp now : Nat)
    (hperm : ¬(4 ≤ hourOf now ∧ hourOf now < 18))
    (hfound : findRec store emp (getShiftDate now) = none) :
    nightCheckIn store emp now =
      .ok (mkRecord emp (getShiftDate now) now (nightCheckInStatus now) :: store) := by
  unfold nightCheckIn nightCheckInCore
  rw [if_neg hperm, hfound]
  have hsave : saveNight (mkRecord emp (getShiftDate now) now (nightCheckInStatus now)) =
      .ok (mkRecord emp (getShiftDate now) now (nightCheckInStatus now)) := by
    unfold saveNight
    rw [saveWith_ok _ _ _ (recordValid405_mk _ _ _ _ (nightCheckInStatus_cases now)),
      preSaveNight_no_checkout _ _ rfl]
  have hcr := createWith_fresh saveNight store _ _ hsave hfound
  simp only [hcr]

/-- C2: night-shift check-in is rejected with `OutsideWindow` for every local
hour in [4, 18), before any duplicate check or classification (the rejection
holds for every store state); for permitted times the classifier labels hour
18 `early`, hour 19 up to minute 5 `present`, and everything else (after
19:05 or the post-midnight hours before 4) `late`, and a fresh check-in
persists a record carrying exactly that label. -/
theorem c2_night_checkin_classification (store : Store) (emp now : Nat) :
    (4 ≤ hourOf now → hourOf now < 18 →
       nightCheckIn store emp now = .error .OutsideWindow) ∧
    (hourOf now < 4 ∨ 18 ≤ hourOf now →
       ((18 ≤ hourOf now ∧ hourOf now < 19) → nightCheckInStatus now = "early") ∧
       ((hourOf now = 19 ∧ minuteOf now ≤ 5) → nightCheckInStatus now = "present") ∧
       ((hourOf now < 4 ∨ (hourOf now = 19 ∧ 5 < minuteOf now) ∨ 20 ≤ hourOf now) →
          nightCheckInStatus now = "late") ∧
       (findRec store emp (getShiftDate now) = none →
          nightCheckIn store emp now =
            .ok (mkRecord emp (getShiftDate now) now (nightCheckInStatus now) :: store))) := by
  constructor
  · intro h4 h18
    unfold nightCheckIn nightCheckInCore
    rw [if_pos ⟨h4, h18⟩]
  · intro hperm
    refine ⟨fun h => ?_, fun h => ?_, fun h => ?_, fun hfound => ?_⟩
    · unfold nightCheckInStatus
      rw [if_pos h]
    · unfold nightCheckInStatus
      rw [if_neg (by omega), if_pos h]
    · unfold nightCheckInStatus
      rw [if_neg (by omega), if_neg (by omega)]
    · exact nightCheckIn_fresh store emp now (by omega) hfound

/-- Witness instantiating `c2_night_checkin_classification`: a check-in at
2024-03-10T05:00 (dead zone) is rejected with `OutsideWindow`, and a fresh
check-in at 2024-03-10T19:03 creates a `present` record. -/
theorem c2_night_checkin_classification_witness :
    nightCheckIn [] 1 (localMs 2024 3 10 5 0) = .error .OutsideWindow ∧
    nightCheckIn [] 1 (localMs 2024 3 10 19 3) =
      .ok [mkRecord 1 (getShiftDate (localMs 2024 3 10 19 3)) (localMs 2024 3 10 19 3)
            (nightCheckInStatus (localMs 2024 3 10 19 3))] :=
  ⟨(c2_night_checkin_classification [] 1 (localMs 2024 3 10 5 0)).1 (by decide) (by decide),
   ((c2_night_checkin_classification [] 1 (localMs 2024 3 10 19 3)).2 (by decide)).2.2.2 rfl⟩

/-- The night-shift checkout classifier keeps the status inside the extended
enum whenever the prior status was inside it. -/
theorem nightCheckOutStatus_mem (now : Nat) (prior : String)
    (h : nightStatusEnum405.contains prior = true) :
    nightStatusEnum405.contains (nightCheckOutStatus now prior) = true := by
  unfold nightCheckOutStatus
  split
  · split
    · rfl
    split
    · rfl
    split
    · rfl
    · rfl
  · exact h

/-- The checkout classifier's cascade of comparisons coincides with the
three-interval reading of the specification: below 3:55 `early-clockout`,
from 3:55 through 4:05 inclusive `clocked-out`, above 4:05 `overtime` — all
only for local hours below 12. -/
theorem nightCheckOutStatus_eq_spec (now : Nat) (prior : String) :
    nightCheckOutStatus now prior =
      (if hourOf now < 12 then
         if timeOfDay now < 3 * msPerHour + 55 * msPerMinute then "early-clockout"
         else if timeOfDay now ≤ 4 * msPerHour + 5 * msPerMinute then "clocked-out"
         else "overtime"
       else prior) := by
  unfold nightCheckOutStatus msPerHour msPerMinute
  split_ifs <;> first | rfl | omega

/-- C3: under the night-shift route, a checkout on a record that is checked
in and not yet checked out records the checkout time and, when the local
hour is below 12, reclassifies the status to `early-clockout` before 3:55,
`clocked-out` from 3:55 through 4:05 inclusive, and `overtime` after 4:05;
at or after local noon the previously stored status is left unchanged. -/
theorem c3_night_checkout (store : Store) (emp now : Nat) (a : AttendanceRecord)
    (hf : findRec store emp (getShiftDate now) = some a)
    (hci : a.checkInTime.isSome = true) (hco : a.checkOutTime = none)
    (hvalid : recordValid nightStatusEnum405 a = true) :
    ∃ a1, nightCheckOut store emp now = .ok (replaceRec store a1) ∧
      a1.checkOutTime = some now ∧ a1.checkInTime = a.checkInTime ∧
      a1.status = (if hourOf now < 12 then
                     if timeOfDay now < 3 * msPerHour + 55 * msPerMinute then "early-clockout"
                     else if timeOfDay now ≤ 4 * msPerHour + 5 * msPerMinute then "clocked-out"
                     else "overtime"
                   else a.status) := by
  have hv2 : recordValid nightStatusEnum405 { a with checkOutTime := some now, status := nightCheckOutStatus now a.status } = true := by
    unfold recordValid at hvalid ⊢
    rw [Bool.and_eq_true] at hvalid
    rcases hvalid with ⟨h1, h2⟩
    show (nightStatusEnum405.contains (nightCheckOutStatus now a.status)
          && breaksValid a.breaks) = true
    rw [Bool.and_eq_true]
    exact ⟨nightCheckOutStatus_mem now a.status h1, h2⟩
  refine ⟨preSaveNight boundary405 { a with checkOutTime := some now, status := nightCheckOutStatus now a.status }, ?_, ?_, ?_, ?_⟩
  · unfold nightCheckOut
    simp only [hf]
    rw [if_neg (show ¬(a.checkInTime.isNone = true) by
      simp only [Option.isNone_iff_eq_none]
      exact Option.ne_none_iff_isSome.mpr hci)]
    rw [if_neg (show ¬(a.checkOutTime.isSome = true) by simp [hco])]
    have hsv : saveNight { a with checkOutTime := some now, status := nightCheckOutStatus now a.status } = .ok (preSaveNight boundary405 { a with checkOutTime := some now, status := nightCheckOutStatus now a.status }) :=
      saveWith_ok _ _ _ hv2
    simp only [hsv]
  · exact (preSaveNight_fields _ _).2.2.1
  · exact (preSaveNight_fields _ _).2.1
  · exact ((preSaveNight_fields _ _).1).trans (nightCheckOutStatus_eq_spec now a.status)

/-- Witness instantiating `c3_night_checkout`: checking out at
2024-03-11T04:00 from the 19:00 check-in record of shift date 2024-03-10
yields the `clocked-out` branch of the classification. -/
theorem c3_night_checkout_witness :
    ∃ a1, nightCheckOut [nightRec1900] 1 (localMs 2024 3 11 4 0) =
        .ok (replaceRec [nightRec1900] a1) ∧
      a1.checkOutTime = some (localMs 2024 3 11 4 0) ∧
      a1.checkInTime = nightRec1900.checkInTime ∧
      a1.status = (if hourOf (localMs 2024 3 11 4 0) < 12 then
                     if timeOfDay (localMs 2024 3 11 4 0) < 3 * msPerHour + 55 * msPerMinute then
                       "early-clockout"
                     else if timeOfDay (localMs 2024 3 11 4 0) ≤
                         4 * msPerHour + 5 * msPerMinute then "clocked-out"
                     else "overtime"
                   else nightRec1900.status) :=
  c3_night_checkout [nightRec1900] 1 (localMs 2024 3 11 4 0) nightRec1900
    (by decide) rfl rfl rfl

/-- C4 (amended): on every save with both times set, `workingHours` is
recomputed from the stored fields as
`max(0, elapsedHours - breakHours)` (idempotently — a second save recomputes
the same value, nothing accumulates), where the break sum counts only breaks
carrying a stored duration; `overtime`, however, is only assigned
`workingHours - 8` when `workingHours > 8` and is otherwise left at its
previously stored value, so it equals `max(0, workingHours - 8)` whenever the
prior overtime was 0 but not in general. -/
theorem c4_working_hours_derivation (r : AttendanceRecord) (ci co : Nat)
    (hci : r.checkInTime = some ci) (hco : r.checkOutTime = some co) :
    (preSaveDay r).workingHours = max 0 (elapsedHours ci co - breakHoursOf r.breaks) ∧
    (preSaveDay (preSaveDay r)).workingHours = (preSaveDay r).workingHours ∧
    (8 < (preSaveDay r).workingHours →
       (preSaveDay r).overtime = (preSaveDay r).workingHours - 8) ∧
    ((preSaveDay r).workingHours ≤ 8 → (preSaveDay r).overtime = r.overtime) ∧
    (r.overtime = 0 →
       (preSaveDay r).overtime = max 0 ((preSaveDay r).workingHours - 8)) := by
  refine ⟨?_, ?_, ?_, ?_, ?_⟩
  · simp only [preSaveDay, hci, hco]
  · simp only [preSaveDay, hci, hco]
  · intro h
    simp only [preSaveDay, hci, hco] at h ⊢
    rw [if_pos h]
  · intro h
    simp only [preSaveDay, hci, hco] at h ⊢
    rw [if_neg (not_lt.mpr h)]
  · intro h
    simp only [preSaveDay, hci, hco]
    by_cases hw : 8 < max 0 (elapsedHours ci co - breakHoursOf r.breaks)
    · rw [if_pos hw]
      exact (max_eq_right (by linarith)).symm
    · rw [if_neg hw, h]
      exact (max_eq_left (by linarith [not_lt.mp hw])).symm

/-- Witness instantiating `c4_working_hours_derivation` on the concrete
scenario record: its working hours equal the elapsed-minus-breaks formula. -/
theorem c4_working_hours_derivation_witness :
    (preSaveDay scenarioRecord).workingHours =
      max 0 (elapsedHours (localMs 2024 3 10 19 0) (localMs 2024 3 11 4 10) -
        breakHoursOf scenarioRecord.breaks) :=
  (c4_working_hours_derivation scenarioRecord _ _ rfl rfl).1

/-- Counterexample to C4 as stated: a reachable sequence of core operations
(check-in 07:03, break start 08:00, check-out 15:59, break end 16:30, all on
2024-03-11 through the day-shift routes) produces a final save with both
times set whose stored `overtime` is the stale 14/15 from the checkout-time
save, not `max(0, workingHours - 8) = 0` for the recomputed
`workingHours = 13/30`. -/
theorem c4_counterexample :
    ((((dayCheckIn [] 1 (localMs 2024 3 11 7 3)).bind
          (fun s => dayBreakStart s 1 "break" (localMs 2024 3 11 8 0))).bind
        (fun s => dayCheckOut s 1 (localMs 2024 3 11 15 59))).bind
      (fun s => dayBreakEnd s 1 (localMs 2024 3 11 16 30))) = .ok [c4FinalRecord] ∧
    c4FinalRecord.checkInTime = some (localMs 2024 3 11 7 3) ∧
    c4FinalRecord.checkOutTime = some (localMs 2024 3 11 15 59) ∧
    c4FinalRecord.workingHours = 13 / 30 ∧ c4FinalRecord.overtime = 14 / 15 ∧
    ¬ c4FinalRecord.overtime = max 0 (c4FinalRecord.workingHours - 8) := by
  have e1 : localMs 2024 3 11 7 3 = 1710140580000 := by decide
  have e2 : localMs 2024 3 11 8 0 = 1710144000000 := by decide
  have e3 : localMs 2024 3 11 15 59 = 1710172740000 := by decide
  have e4 : localMs 2024 3 11 16 30 = 1710174600000 := by decide
  have hmax : max (0 : ℚ) (13 / 30 - 8) = 0 := max_eq_left (by norm_num)
  refine ⟨?_, by decide, by decide, rfl, rfl, ?_⟩
  · rw [e1, e2, e3, e4]
    norm_num [dayCheckIn, dayCheckInCore, dayBreakStart, dayCheckOut, dayBreakEnd,
      breakStartCore, breakEndCore, saveDay, saveWith, preSaveDay, createWith,
      findRec, replaceRec, mkRecord, dayCheckInStatus, dayCheckOutStatus,
      recordValid, breaksValid, hasOpenBreak, closeFirstOpen, closedBreakMinutes,
      elapsedHours, breakHoursOf, dayStatusEnum, reasonEnum, msPerDay, msPerHour,
      msPerMinute, timeOfDay, hourOf, dayStart, Except.bind, c4FinalRecord]
  · show ¬ c4FinalRecord.overtime = max 0 (c4FinalRecord.workingHours - 8)
    norm_num [c4FinalRecord, hmax]

/-- C5: under both night-shift model variants the hook computes Policy B
overtime exactly as the specification words it (time from the boundary to
the checkout when the checkout is after the boundary and before local noon,
else zero), and on the concrete scenario — check-in 2024-03-10T19:00,
check-out 2024-03-11T04:10, one closed 30-minute break — the saved record
has elapsed hours 55/6 (9.1667 to four decimals), break hours 1/2, working
hours 26/3 (8.6667 to four decimals) and, under the 4:05 variant, overtime
1/12 (0.0833 to four decimals), which is exactly the 5 minutes from the 4:05
boundary to 4:10 divided by 3600000 ms per hour. -/
theorem c5_policyB_overtime (r : AttendanceRecord) (ci co : Nat)
    (hci : r.checkInTime = some ci) (hco : r.checkOutTime = some co) :
    ((preSaveNight boundary405 r).overtime = policyBOvertimeSpec boundary405 co) ∧
    ((preSaveNight boundary400 r).overtime = policyBOvertimeSpec boundary400 co) ∧
    elapsedHours (localMs 2024 3 10 19 0) (localMs 2024 3 11 4 10) = 55 / 6 ∧
    |elapsedHours (localMs 2024 3 10 19 0) (localMs 2024 3 11 4 10) - 9.1667| < 1 / 20000 ∧
    breakHoursOf scenarioRecord.breaks = 1 / 2 ∧
    (preSaveNight boundary405 scenarioRecord).workingHours = 26 / 3 ∧
    |(preSaveNight boundary405 scenarioRecord).workingHours - 8.6667| < 1 / 20000 ∧
    (preSaveNight boundary405 scenarioRecord).overtime = 1 / 12 ∧
    ((timeOfDay (localMs 2024 3 11 4 10) - boundary405 : Nat) : ℚ) / 3600000 = 1 / 12 ∧
    |(preSaveNight boundary405 scenarioRecord).overtime - 0.0833| < 1 / 20000 := by
  have e5 : localMs 2024 3 10 19 0 = 1710097200000 := by decide
  have e6 : localMs 2024 3 11 4 10 = 1710130200000 := by decide
  have e7 : localMs 2024 3 10 22 0 = 1710108000000 := by decide
  have e8 : localMs 2024 3 10 22 30 = 1710109800000 := by decide
  refine ⟨?_, ?_, ?_, ?_, ?_, ?_, ?_, ?_, ?_, ?_⟩
  · simp only [preSaveNight, policyBOvertimeSpec, hci, hco]
  · simp only [preSaveNight, policyBOvertimeSpec, hci, hco]
  · rw [e5, e6]
    norm_num [elapsedHours]
  · rw [e5, e6]
    norm_num [elapsedHours, abs_lt]
  · norm_num [breakHoursOf, closedBreakMinutes, scenarioRecord, e7, e8]
  · norm_num [preSaveNight, scenarioRecord, e5, e6, e7, e8, elapsedHours,
      breakHoursOf, closedBreakMinutes, timeOfDay, hourOf, msPerDay, msPerHour,
      msPerMinute, boundary405]
  · norm_num [preSaveNight, scenarioRecord, e5, e6, e7, e8, elapsedHours,
      breakHoursOf, closedBreakMinutes, timeOfDay, hourOf, msPerDay, msPerHour,
      msPerMinute, boundary405, abs_lt]
  · norm_num [preSaveNight, scenarioRecord, e5, e6, e7, e8, elapsedHours,
      breakHoursOf, closedBreakMinutes, timeOfDay, hourOf, msPerDay, msPerHour,
      msPerMinute, boundary405]
  · rw [e6]
    norm_num [timeOfDay, boundary405, msPerDay, msPerHour, msPerMinute]
  · norm_num [preSaveNight, scenarioRecord, e5, e6, e7, e8, elapsedHours,
      breakHoursOf, closedBreakMinutes, timeOfDay, hourOf, msPerDay, msPerHour,
      msPerMinute, boundary405, abs_lt]

/-- Witness instantiating `c5_policyB_overtime` on the scenario record. -/
theorem c5_policyB_overtime_witness :
    (preSaveNight boundary405 scenarioRecord).overtime =
      policyBOvertimeSpec boundary405 (localMs 2024 3 11 4 10) :=
  (c5_policyB_overtime scenarioRecord _ _ rfl rfl).1

/-- C6 evaluated at its failing and passing inputs: at 06:55 the route
classifier computes `early`, but the day-shift schema enum rejects that
status, so the save throws and the request ends in the generic 500 with
nothing persisted; at 07:03 and 07:10 the classified record (`present`,
`late`) is persisted as the claim states, and at 16:01 the attempt is
rejected before classification. -/
theorem c6_day_checkin_eval :
    dayCheckInStatus (localMs 2024 3 11 6 55) = "early" ∧
    recordValid dayStatusEnum
      (mkRecord 1 (localMs 2024 3 11 0 0) (localMs 2024 3 11 6 55) "early") = false ∧
    dayCheckIn [] 1 (localMs 2024 3 11 6 55) = .error .ServerError ∧
    dayCheckIn [] 1 (localMs 2024 3 11 7 3) =
      .ok [mkRecord 1 (localMs 2024 3 11 0 0) (localMs 2024 3 11 7 3) "present"] ∧
    dayCheckIn [] 1 (localMs 2024 3 11 7 10) =
      .ok [mkRecord 1 (localMs 2024 3 11 0 0) (localMs 2024 3 11 7 10) "late"] ∧
    dayCheckIn [] 1 (localMs 2024 3 11 16 1) = .error .OutsideWindow := by
  exact ⟨by decide, by decide, rfl, rfl, rfl, rfl⟩

/-- C7 evaluated: a day-shift checkout at 16:07 computes `overtime` and one
at 16:03 computes `clocked-out`, but the day-shift schema enum rejects both,
so those saves throw, the requests end in the generic 500 and no checkout is
persisted; a checkout at 15:30 keeps the prior status `present`, records the
checkout time and persists (with the hook-derived hours). -/
theorem c7_day_checkout_eval :
    dayCheckOutStatus (localMs 2024 3 11 16 7) "present" = "overtime" ∧
    dayCheckOut [dayRec0703] 1 (localMs 2024 3 11 16 7) = .error .ServerError ∧
    dayCheckOutStatus (localMs 2024 3 11 16 3) "present" = "clocked-out" ∧
    dayCheckOut [dayRec0703] 1 (localMs 2024 3 11 16 3) = .error .ServerError ∧
    dayCheckOut [dayRec0703] 1 (localMs 2024 3 11 15 30) = .ok [dayRec0703Out] := by
  have e1 : localMs 2024 3 11 7 3 = 1710140580000 := by decide
  have e2 : localMs 2024 3 11 15 30 = 1710171000000 := by decide
  have e3 : localMs 2024 3 11 0 0 = 1710115200000 := by decide
  refine ⟨by decide, rfl, by decide, rfl, ?_⟩
  norm_num [dayCheckOut, findRec, replaceRec, saveDay, saveWith, preSaveDay,
    dayCheckOutStatus, recordValid, breaksValid, hasOpenBreak, closedBreakMinutes,
    elapsedHours, breakHoursOf, dayStatusEnum, reasonEnum, msPerDay, msPerHour,
    msPerMinute, timeOfDay, hourOf, dayStart, dayRec0703, dayRec0703Out, mkRecord,
    e1, e2, e3]

/-- The day-shift check-in classifier produces a schema-valid label (present
or late) whenever the local time is at or after 07:00. -/
theorem dayCheckInStatus_cases_late (now : Nat) (h : 7 * msPerHour ≤ timeOfDay now) :
    dayCheckInStatus now = "present" ∨ dayCheckInStatus now = "late" := by
  unfold dayCheckInStatus
  rw [if_neg (not_lt.mpr h)]
  split
  · exact Or.inl rfl
  · exact Or.inr rfl

/-- A fresh record with a present/late status validates against the
day-shift enum. -/
theorem recordValidDay_mk (emp d ci : Nat) (st : String)
    (h : st = "present" ∨ st = "late") :
    recordValid dayStatusEnum (mkRecord emp d ci st) = true := by
  rcases h with rfl | rfl <;> rfl

/-- A day-shift check-in at or after 07:00 and before the 16:00 cutoff on a
fresh calendar day creates the classified record. -/
theorem dayCheckIn_fresh (store : Store) (emp now : Nat)
    (h7 : 7 * msPerHour ≤ timeOfDay now) (hcut : timeOfDay now < 16 * msPerHour)
    (hfound : findRec store emp (dayStart now) = none) :
    dayCheckIn store emp now =
      .ok (mkRecord emp (dayStart now) now (dayCheckInStatus now) :: store) := by
  unfold dayCheckIn dayCheckInCore
  simp only [hfound]
  rw [if_neg (not_le.mpr hcut)]
  have hsave : saveDay (mkRecord emp (dayStart now) now (dayCheckInStatus now)) =
      .ok (mkRecord emp (dayStart now) now (dayCheckInStatus now)) := by
    unfold saveDay
    rw [saveWith_ok _ _ _ (recordValidDay_mk _ _ _ _ (dayCheckInStatus_cases_late now h7)),
      preSaveDay_no_checkout _ rfl]
  have hcr := createWith_fresh saveDay store _ _ hsave hfound
  simp only [hcr]

/-- A check-in route finds the record just created for the same key. -/
theorem findRec_cons_self (store : Store) (emp d ci : Nat) (st : String) (d2 : Nat)
    (hd : d2 = d) :
    findRec (mkRecord emp d ci st :: store) emp d2 = some (mkRecord emp d ci st) := by
  unfold findRec
  apply List.find?_cons_of_pos
  subst hd
  show (emp == emp && d2 == d2) = true
  simp

/-- C9 (amended): a first check-in on a fresh shift date succeeds and any
second check-in through the same route for the same resolved shift date is
rejected with `AlreadyCheckedIn` by the pre-check on the stored check-in time
(for the day shift this holds for every later time of the same calendar day;
for the night shift whenever the second attempt is outside the dead zone);
but when the duplicate is only detected at create time — the situation of
two racing calls whose `findOne` both saw no record — the unique-index
violation is not translated: the route's catch block turns it into the
generic raw 500 `ServerError`. -/
theorem c9_duplicate_checkin_amended :
    (∀ store emp now1 now2, findRec store emp (dayStart now1) = none →
       7 * msPerHour ≤ timeOfDay now1 → timeOfDay now1 < 16 * msPerHour →
       dayStart now2 = dayStart now1 →
       ∃ s1, dayCheckIn store emp now1 = .ok s1 ∧
         dayCheckIn s1 emp now2 = .error .AlreadyCheckedIn) ∧
    (∀ store emp now1 now2, findRec store emp (getShiftDate now1) = none →
       ¬(4 ≤ hourOf now1 ∧ hourOf now1 < 18) → ¬(4 ≤ hourOf now2 ∧ hourOf now2 < 18) →
       getShiftDate now2 = getShiftDate now1 →
       ∃ s1, nightCheckIn store emp now1 = .ok s1 ∧
         nightCheckIn s1 emp now2 = .error .AlreadyCheckedIn) ∧
    (∀ store emp now, (findRec store emp (dayStart now)).isSome = true →
       timeOfDay now < 16 * msPerHour →
       dayCheckInCore none store emp now = .error .ServerError) := by
  refine ⟨?_, ?_, ?_⟩
  · intro store emp now1 now2 hfound h7 hcut hday
    refine ⟨mkRecord emp (dayStart now1) now1 (dayCheckInStatus now1) :: store,
      dayCheckIn_fresh store emp now1 h7 hcut hfound, ?_⟩
    unfold dayCheckIn dayCheckInCore
    simp only [findRec_cons_self store emp (dayStart now1) now1 (dayCheckInStatus now1)
      (dayStart now2) hday]
    rfl
  · intro store emp now1 now2 hfound hperm1 hperm2 hday
    refine ⟨mkRecord emp (getShiftDate now1) now1 (nightCheckInStatus now1) :: store,
      nightCheckIn_fresh store emp now1 hperm1 hfound, ?_⟩
    unfold nightCheckIn nightCheckInCore
    rw [if_neg hperm2]
    simp only [findRec_cons_self store emp (getShiftDate now1) now1 (nightCheckInStatus now1)
      (getShiftDate now2) hday]
    rfl
  · intro store emp now hsome hcut
    unfold dayCheckInCore
    rw [if_neg (not_le.mpr hcut)]
    cases hc : createWith saveDay store (mkRecord emp (dayStart now) now (dayCheckInStatus now)) with
    | error e => simp only [hc]
    | ok s =>
      exfalso
      unfold createWith at hc
      split at hc
      · exact Except.noConfusion hc
      · split at hc
        · exact Except.noConfusion hc
        · rename_i hnot
          exact hnot hsome

/-- Witness instantiating `c9_duplicate_checkin_amended`: check-in at
2024-03-11T07:03 on an empty store succeeds, a second attempt at 09:00 the
same day is rejected with `AlreadyCheckedIn`. -/
theorem c9_duplicate_checkin_amended_witness :
    ∃ s1, dayCheckIn [] 1 (localMs 2024 3 11 7 3) = .ok s1 ∧
      dayCheckIn s1 1 (localMs 2024 3 11 9 0) = .error .AlreadyCheckedIn :=
  c9_duplicate_checkin_amended.1 [] 1 (localMs 2024 3 11 7 3) (localMs 2024 3 11 9 0)
    rfl (by decide) (by decide) (by decide)

/-- Counterexample to C9 as stated: after the first check-in has committed,
a second request whose `findOne` ran against the pre-insert state (the
flagged uniqueness race) reaches `create`, and the duplicate-key violation
surfaces as the raw `ServerError` 500, not as `AlreadyCheckedIn`. -/
theorem c9_counterexample :
    dayCheckIn [] 1 (localMs 2024 3 11 7 3) =
      .ok [mkRecord 1 (localMs 2024 3 11 0 0) (localMs 2024 3 11 7 3) "present"] ∧
    dayCheckInCore none
      [mkRecord 1 (localMs 2024 3 11 0 0) (localMs 2024 3 11 7 3) "present"] 1
      (localMs 2024 3 11 7 4) = .error .ServerError ∧
    RouteError.ServerError ≠ RouteError.AlreadyCheckedIn :=
  ⟨rfl, rfl, by decide⟩

/-- C10: the day-shift schema restricts `status` to the seven-value enum
with default `absent`; none of the route-assigned extended statuses pass its
validation, every record that the day-shift model actually saves has a
status in the seven-value set, and the extended vocabulary is accepted by
the night-shift model variants (the 4:05 variant accepts all four, the 4:00
variant the three it assigns). -/
theorem c10_day_schema_enum :
    dayStatusEnum = ["present", "absent", "late", "half-day", "on-leave", "holiday", "weekend"] ∧
    defaultStatus = "absent" ∧
    (∀ s ∈ extendedStatuses, dayStatusEnum.contains s = false) ∧
    (∀ r r1, saveDay r = .ok r1 → r1.status ∈ dayStatusEnum) ∧
    (∀ s ∈ extendedStatuses, nightStatusEnum405.contains s = true) ∧
    (∀ s ∈ (["early", "overtime", "clocked-out"] : List String),
       nightStatusEnum400.contains s = true) := by
  refine ⟨rfl, rfl, by decide, ?_, by decide, by decide⟩
  intro r r1 h
  unfold saveDay saveWith at h
  split at h
  · rename_i hval
    injection h with h
    subst h
    rw [(preSaveDay_fields r).1]
    unfold recordValid at hval
    rw [Bool.and_eq_true] at hval
    exact List.elem_iff.mp hval.1
  · exact Except.noConfusion h

/-- Witness instantiating `c10_day_schema_enum`: a saved `present` record
has its status in the seven-value enum. -/
theorem c10_day_schema_enum_witness :
    (mkRecord 1 0 5 "present").status ∈ dayStatusEnum :=
  c10_day_schema_enum.2.2.2.1 (mkRecord 1 0 5 "present") (mkRecord 1 0 5 "present") rfl

/-- A `findOne` hit is a member of the store. -/
theorem findRec_mem (store : Store) (emp d : Nat) (a : AttendanceRecord)
    (h : findRec store emp d = some a) : a ∈ store :=
  List.mem_of_find?_eq_some h

/-- Replacing a record whose break list satisfies the bound preserves the
store invariant. -/
theorem storeInv_replace (store : Store) (a : AttendanceRecord)
    (hs : storeInv store) (ha : openCount a.breaks ≤ 1) :
    storeInv (replaceRec store a) := by
  intro r hr
  unfold replaceRec at hr
  obtain ⟨x, hx, hxr⟩ := List.mem_map.mp hr
  by_cases hc : (x.employee == a.employee && x.date == a.date) = true
  · rw [if_pos hc] at hxr
    rw [← hxr]
    exact ha
  · rw [if_neg hc] at hxr
    rw [← hxr]
    exact hs x hx

/-- Prepending a record whose break list satisfies the bound preserves the
store invariant. -/
theorem storeInv_cons (store : Store) (a : AttendanceRecord)
    (hs : storeInv store) (ha : openCount a.breaks ≤ 1) :
    storeInv (a :: store) := by
  intro r hr
  rcases List.mem_cons.mp hr with rfl | hmem
  · exact ha
  · exact hs r hmem

/-- When the route saw no open break, the open count is zero. -/
theorem openCount_of_no_open (bs : List BreakEntry) (h : hasOpenBreak bs = false) :
    openCount bs = 0 := by
  induction bs with
  | nil => rfl
  | cons b bs ih =>
    unfold hasOpenBreak at h
    rw [List.any_cons, Bool.or_eq_false_iff] at h
    unfold openCount
    rw [List.filter_cons, if_neg (by rw [h.1]; exact Bool.false_ne_true)]
    exact ih h.2

/-- The open count distributes over the appended singleton. -/
theorem openCount_append (bs : List BreakEntry) (e : BreakEntry) :
    openCount (bs ++ [e]) = openCount bs + openCount [e] := by
  unfold openCount
  rw [List.filter_append, List.length_append]

/-- Closing the first open break never increases the open count. -/
theorem openCount_closeFirstOpen_le (now : Nat) (bs : List BreakEntry) :
    openCount (closeFirstOpen now bs) ≤ openCount bs := by
  induction bs with
  | nil => exact Nat.le_refl 0
  | cons b bs ih =>
    unfold closeFirstOpen
    by_cases h : b.endTime.isNone = true
    · rw [if_pos h]
      unfold openCount
      rw [List.filter_cons, List.filter_cons, if_pos h]
      rw [if_neg (by intro hc; exact Bool.false_ne_true hc)]
      exact Nat.le_succ _
    · rw [if_neg h]
      unfold openCount
      rw [List.filter_cons, List.filter_cons]
      by_cases h2 : b.endTime.isNone = true
      · exact absurd h2 h
      · rw [if_neg h2, if_neg h2]
        exact ih

/-- A successful `saveWith` returns the hook applied to the document. -/
theorem saveWith_ok_eq (enum : List String) (hook : AttendanceRecord → AttendanceRecord)
    (r r1 : AttendanceRecord) (h : saveWith enum hook r = .ok r1) : r1 = hook r := by
  unfold saveWith at h
  split at h
  · injection h with h
    exact h.symm
  · exact Except.noConfusion h

/-- The day-shift save returns a record with unchanged breaks. -/
theorem saveDay_breaks (r r1 : AttendanceRecord) (h : saveDay r = .ok r1) :
    r1.breaks = r.breaks := by
  rw [saveWith_ok_eq dayStatusEnum preSaveDay r r1 h]
  exact (preSaveDay_fields r).2.2.2

/-- The night-shift save returns a record with unchanged breaks. -/
theorem saveNight_breaks (r r1 : AttendanceRecord) (h : saveNight r = .ok r1) :
    r1.breaks = r.breaks := by
  rw [saveWith_ok_eq nightStatusEnum405 (preSaveNight boundary405) r r1 h]
  exact (preSaveNight_fields boundary405 r).2.2.2

/-- A successful create inserts a single record with the breaks of the
requested document at the front of the store. -/
theorem createWith_ok (save : AttendanceRecord → Except StorageError AttendanceRecord)
    (hsave : ∀ r r1, save r = .ok r1 → r1.breaks = r.breaks)
    (store : Store) (r : AttendanceRecord) (s : Store)
    (h : createWith save store r = .ok s) :
    ∃ r1, r1.breaks = r.breaks ∧ s = r1 :: store := by
  unfold createWith at h
  split at h
  · exact Except.noConfusion h
  · rename_i r1 hsv
    split at h
    · exact Except.noConfusion h
    · injection h with h
      exact ⟨r1, hsave _ _ hsv, h.symm⟩

/-- Break-start preserves the invariant (for any save whose hook keeps the
break list). -/
theorem breakStartCore_inv (save : AttendanceRecord → Except StorageError AttendanceRecord)
    (hsave : ∀ r r1, save r = .ok r1 → r1.breaks = r.breaks)
    (found : Option AttendanceRecord) (store : Store) (reason : String) (now : Nat)
    (s1 : Store) (hs : storeInv store)
    (hmem : ∀ a, found = some a → a ∈ store)
    (h : breakStartCore save found store reason now = .ok s1) : storeInv s1 := by
  cases found with
  | none => exact Except.noConfusion h
  | some a =>
    unfold breakStartCore at h
    split at h
    · exact Except.noConfusion h
    rename_i b heq
    split at h
    · exact Except.noConfusion h
    · split at h
      · exact Except.noConfusion h
      · split at h
        · exact Except.noConfusion h
        · rename_i hno hco hopen
          split at h
          · rename_i a1 hsv
            injection h with h
            subst h
            apply storeInv_replace store a1 hs
            rw [hsave _ _ hsv]
            show openCount (b.breaks ++ [⟨now, none, none, reason⟩]) ≤ 1
            rw [openCount_append,
              openCount_of_no_open b.breaks (Bool.not_eq_true _ ▸ hopen)]
            exact Nat.le_refl 1
          · exact Except.noConfusion h

/-- Break-end preserves the invariant. -/
theorem breakEndCore_inv (save : AttendanceRecord → Except StorageError AttendanceRecord)
    (hsave : ∀ r r1, save r = .ok r1 → r1.breaks = r.breaks)
    (found : Option AttendanceRecord) (store : Store) (now : Nat)
    (s1 : Store) (hs : storeInv store)
    (hmem : ∀ a, found = some a → a ∈ store)
    (h : breakEndCore save found store now = .ok s1) : storeInv s1 := by
  cases found with
  | none => exact Except.noConfusion h
  | some a =>
    unfold breakEndCore at h
    split at h
    · exact Except.noConfusion h
    rename_i b heq
    split at h
    · exact Except.noConfusion h
    · split at h
      · exact Except.noConfusion h
      · split at h
        · rename_i a1 hsv
          injection h with h
          subst h
          apply storeInv_replace store a1 hs
          rw [hsave _ _ hsv]
          show openCount (closeFirstOpen now b.breaks) ≤ 1
          exact Nat.le_trans (openCount_closeFirstOpen_le now b.breaks)
            (hs b (hmem b heq))
        · exact Except.noConfusion h

/-- Day-shift check-in preserves the invariant. -/
theorem dayCheckIn_inv (store : Store) (emp now : Nat) (s1 : Store)
    (hs : storeInv store) (h : dayCheckIn store emp now = .ok s1) : storeInv s1 := by
  unfold dayCheckIn dayCheckInCore at h
  split at h
  · rename_i b heq
    split at h
    · exact Except.noConfusion h
    · split at h
      · exact Except.noConfusion h
      · split at h
        · rename_i a1 hsv
          injection h with h
          subst h
          apply storeInv_replace store a1 hs
          rw [saveDay_breaks _ _ hsv]
          exact hs b (findRec_mem store emp (dayStart now) b heq)
        · exact Except.noConfusion h
  · split at h
    · exact Except.noConfusion h
    · split at h
      · rename_i s hcr
        injection h with h
        subst h
        obtain ⟨r1, hr1, hseq⟩ := createWith_ok saveDay saveDay_breaks store _ s hcr
        subst hseq
        apply storeInv_cons store r1 hs
        rw [hr1]
        exact Nat.le_succ 0
      · exact Except.noConfusion h

/-- Night-shift check-in preserves the invariant. -/
theorem nightCheckIn_inv (store : Store) (emp now : Nat) (s1 : Store)
    (hs : storeInv store) (h : nightCheckIn store emp now = .ok s1) : storeInv s1 := by
  unfold nightCheckIn nightCheckInCore at h
  split at h
  · exact Except.noConfusion h
  · split at h
    · rename_i b heq
      split at h
      · exact Except.noConfusion h
      · split at h
        · rename_i a1 hsv
          injection h with h
          subst h
          apply storeInv_replace store a1 hs
          rw [saveNight_breaks _ _ hsv]
          exact hs b (findRec_mem store emp (getShiftDate now) b heq)
        · exact Except.noConfusion h
    · split at h
      · rename_i s hcr
        injection h with h
        subst h
        obtain ⟨r1, hr1, hseq⟩ := createWith_ok saveNight saveNight_breaks store _ s hcr
        subst hseq
        apply storeInv_cons store r1 hs
        rw [hr1]
        exact Nat.le_succ 0
      · exact Except.noConfusion h

/-- Day-shift check-out preserves the invariant. -/
theorem dayCheckOut_inv (store : Store) (emp now : Nat) (s1 : Store)
    (hs : storeInv store) (h : dayCheckOut store emp now = .ok s1) : storeInv s1 := by
  unfold dayCheckOut at h
  split at h
  · exact Except.noConfusion h
  · rename_i b heq
    split at h
    · exact Except.noConfusion h
    · split at h
      · exact Except.noConfusion h
      · split at h
        · rename_i a1 hsv
          injection h with h
          subst h
          apply storeInv_replace store a1 hs
          rw [saveDay_breaks _ _ hsv]
          exact hs b (findRec_mem store emp (dayStart now) b heq)
        · exact Except.noConfusion h

/-- Night-shift check-out preserves the invariant. -/
theorem nightCheckOut_inv (store : Store) (emp now : Nat) (s1 : Store)
    (hs : storeInv store) (h : nightCheckOut store emp now = .ok s1) : storeInv s1 := by
  unfold nightCheckOut at h
  split at h
  · exact Except.noConfusion h
  · rename_i b heq
    split at h
    · exact Except.noConfusion h
    · split at h
      · exact Except.noConfusion h
      · split at h
        · rename_i a1 hsv
          injection h with h
          subst h
          apply storeInv_replace store a1 hs
          rw [saveNight_breaks _ _ hsv]
          exact hs b (findRec_mem store emp (getShiftDate now) b heq)
        · exact Except.noConfusion h

/-- C8: `startBreak` is rejected with `BreakAlreadyOpen` on a record that is
checked in, not checked out, and already has an open break (and rejected
earlier when there is no check-in or a checkout exists); `endBreak` on a
checked-in record with no open break is rejected with `NoOpenBreak`; and
every route operation of both shift modules — check-in, check-out, break
start, break end — preserves the at-most-one-open-break invariant over every
record of the store. -/
theorem c8_break_invariant :
    (∀ save store reason now,
       breakStartCore save none store reason now = .error .NotCheckedIn) ∧
    (∀ save found store reason now a, found = some a → a.checkInTime.isSome = true →
       a.checkOutTime = none → hasOpenBreak a.breaks = true →
       breakStartCore save found store reason now = .error .BreakAlreadyOpen) ∧
    (∀ save found store reason now a, found = some a → a.checkInTime.isSome = true →
       a.checkOutTime.isSome = true →
       breakStartCore save found store reason now = .error .AlreadyCheckedOut) ∧
    (∀ save found store now a, found = some a → a.checkInTime.isSome = true →
       hasOpenBreak a.breaks = false →
       breakEndCore save found store now = .error .NoOpenBreak) ∧
    (∀ store emp now s1, storeInv store →
       dayCheckIn store emp now = .ok s1 → storeInv s1) ∧
    (∀ store emp now s1, storeInv store →
       dayCheckOut store emp now = .ok s1 → storeInv s1) ∧
    (∀ store emp reason now s1, storeInv store →
       dayBreakStart store emp reason now = .ok s1 → storeInv s1) ∧
    (∀ store emp now s1, storeInv store →
       dayBreakEnd store emp now = .ok s1 → storeInv s1) ∧
    (∀ store emp now s1, storeInv store →
       nightCheckIn store emp now = .ok s1 → storeInv s1) ∧
    (∀ store emp now s1, storeInv store →
       nightCheckOut store emp now = .ok s1 → storeInv s1) ∧
    (∀ store emp reason now s1, storeInv store →
       nightBreakStart store emp reason now = .ok s1 → storeInv s1) ∧
    (∀ store emp now s1, storeInv store →
       nightBreakEnd store emp now = .ok s1 → storeInv s1) := by
  refine ⟨fun save store reason now => rfl, ?_, ?_, ?_, ?_, ?_, ?_, ?_, ?_, ?_, ?_, ?_⟩
  · intro save found store reason now a hfa hin hout hopen
    subst hfa
    simp only [breakStartCore]
    rw [if_neg (show ¬(a.checkInTime.isNone = true) by
        simp only [Option.isNone_iff_eq_none]
        exact Option.ne_none_iff_isSome.mpr hin)]
    rw [if_neg (show ¬(a.checkOutTime.isSome = true) by simp [hout])]
    rw [if_pos hopen]
  · intro save found store reason now a hfa hin hout
    subst hfa
    simp only [breakStartCore]
    rw [if_neg (show ¬(a.checkInTime.isNone = true) by
        simp only [Option.isNone_iff_eq_none]
        exact Option.ne_none_iff_isSome.mpr hin)]
    rw [if_pos hout]
  · intro save found store now a hfa hin hopen
    subst hfa
    simp only [breakEndCore]
    rw [if_neg (show ¬(a.checkInTime.isNone = true) by
        simp only [Option.isNone_iff_eq_none]
        exact Option.ne_none_iff_isSome.mpr hin)]
    rw [if_pos hopen]
  · exact fun store emp now s1 hs h => dayCheckIn_inv store emp now s1 hs h
  · exact fun store emp now s1 hs h => dayCheckOut_inv store emp now s1 hs h
  · exact fun store emp reason now s1 hs h =>
      breakStartCore_inv saveDay saveDay_breaks _ store reason now s1 hs
        (fun a ha => findRec_mem store emp (dayStart now) a ha) h
  · exact fun store emp now s1 hs h =>
      breakEndCore_inv saveDay saveDay_breaks _ store now s1 hs
        (fun a ha => findRec_mem store emp (dayStart now) a ha) h
  · exact fun store emp now s1 hs h => nightCheckIn_inv store emp now s1 hs h
  · exact fun store emp now s1 hs h => nightCheckOut_inv store emp now s1 hs h
  · exact fun store emp reason now s1 hs h =>
      breakStartCore_inv saveNight saveNight_breaks _ store reason now s1 hs
        (fun a ha => findRec_mem store emp (getShiftDate now) a ha) h
  · exact fun store emp now s1 hs h =>
      breakEndCore_inv saveNight saveNight_breaks _ store now s1 hs
        (fun a ha => findRec_mem store emp (getShiftDate now) a ha) h

/-- Witness instantiating `c8_break_invariant`: starting a second break on a
record with an open break is rejected with `BreakAlreadyOpen`. -/
theorem c8_break_invariant_witness :
    breakStartCore saveDay (some recOpenBreak) [recOpenBreak] "break" 5 =
      .error .BreakAlreadyOpen :=
  c8_break_invariant.2.1 saveDay (some recOpenBreak) [recOpenBreak] "break" 5
    recOpenBreak rfl rfl rfl rfl

end OfficeAttendance
